import Mathlib

/-!
# Verification of the dedicatus inventory store and entity-resolution cache

A shallow embedding of `models/inventory.go` and the knowledge-graph lookup
utilities (`utils` package) of the dedicatus repository, together with
theorems settling the specification claims about them.

Modelling conventions:
* The App Engine datastore is a finite association list `Store` from string
  keys (`FileID`) to `Inventory` records; `nds.Get` / `nds.Put` /
  `nds.Delete` become `Store.get` / `Store.put` / `Store.delete`.
* Machine integers (`int`, `int64`) are `Int`; times are `Nat` ticks and the
  current time is passed as an explicit `now` argument wherever the Go code
  calls `time.Now()`.
* The MD5 digest is an abstracted function `List Nat → List Nat` over byte
  sequences, passed as a parameter: the claims depend only on which bytes
  are hashed and on equality of digests, never on the MD5 algorithm.
* `tgapi.FetchFileInfo` is modelled by an explicit argument
  `Option (TGFile × List Nat)`: `some (file, bytes)` for a successful fetch,
  `none` for a fetch error (in which case the Go byte slice `b` is `nil`,
  modelled as `[]`).
* For the two functions whose claims are about transactional atomicity
  (`ReplaceFileID`, `UpdateFileMetadata`) an infrastructure-failure oracle
  `fail : Nat → Bool` is threaded through: `fail n = true` makes the n-th
  fallible backing-store operation of the function (numbered in source
  order) return an infrastructure error.  In `ReplaceFileID` the closure
  performs every operation with the *transaction* context (the closure
  parameter shadows `ctx`), so mutations are buffered and an error on any
  operation rolls everything back: the embedding returns the original store
  on every error path and applies the delete+put as one atomic step on
  success.  In `UpdateFileMetadata` the closure parameter is named `tc` but
  every operation inside uses the *outer* non-transactional `ctx`, so each
  mutation takes effect against the committed store immediately and is NOT
  rolled back when a later operation fails; the embedding mirrors that
  faithfully.
* Other operations' backing-store calls are modelled as non-failing, since
  no claim concerns their infrastructure-error paths.
-/

namespace Dedicatus

/-- The `Inventory` record, mirroring the Go struct field for field
(`models/inventory.go`).  Datastore keys for personalities are modelled as
`Nat` identifiers, the MD5 digest as a byte list, times as `Nat` ticks. -/
structure Inventory where
  FileID : String
  FileType : String
  Personality : List Nat
  Creator : Int
  UsageCount : Int
  LastUsed : Nat
  MD5Sum : List Nat
  FileSize : Int
deriving Repr, DecidableEq

/-- The Go zero value of `Inventory`, as allocated by `new(Inventory)`. -/
def Inventory.zero : Inventory :=
  { FileID := "", FileType := "", Personality := [], Creator := 0,
    UsageCount := 0, LastUsed := 0, MD5Sum := [], FileSize := 0 }

instance : Inhabited Inventory := ⟨Inventory.zero⟩

/-- The datastore, keyed by `FileID` (the entity key built by
`inventoryKey`). -/
abbrev Store := List (String × Inventory)

/-- Model of `nds.Get` by key: the first entry with the given key, if any.
`none` models `datastore.ErrNoSuchEntity`. -/
def Store.get : Store → String → Option Inventory
  | [], _ => none
  | kv :: t, k => if kv.1 = k then some kv.2 else Store.get t k

/-- Model of `nds.Delete` by key. -/
def Store.delete : Store → String → Store
  | [], _ => []
  | kv :: t, k => if kv.1 = k then Store.delete t k else kv :: Store.delete t k

/-- Model of `nds.Put`: upsert at the given key. -/
def Store.put (s : Store) (k : String) (v : Inventory) : Store :=
  (k, v) :: Store.delete s k

theorem Store.get_delete_ne (s : Store) (k k' : String) (h : k' ≠ k) :
    Store.get (Store.delete s k) k' = Store.get s k' := by
  induction s with
  | nil => rfl
  | cons kv t ih =>
    by_cases hk : kv.1 = k
    · have hk' : kv.1 ≠ k' := fun he => h (he.symm.trans hk)
      have hkk' : k ≠ k' := fun he => h he.symm
      simp [Store.delete, Store.get, hk, hk', hkk', ih]
    · simp only [Store.delete, if_neg hk, Store.get]
      by_cases hk' : kv.1 = k' <;> simp [hk', ih]

theorem Store.get_delete_self (s : Store) (k : String) :
    Store.get (Store.delete s k) k = none := by
  induction s with
  | nil => rfl
  | cons kv t ih =>
    by_cases hk : kv.1 = k <;> simp [Store.delete, Store.get, hk, ih]

theorem Store.get_put_self (s : Store) (k : String) (v : Inventory) :
    Store.get (Store.put s k v) k = some v := by
  simp [Store.get, Store.put]

theorem Store.get_put_ne (s : Store) (k k' : String) (v : Inventory) (h : k' ≠ k) :
    Store.get (Store.put s k v) k' = Store.get s k' := by
  have hne : k ≠ k' := fun he => h he.symm
  simp only [Store.put, Store.get, if_neg hne]
  exact Store.get_delete_ne s k k' h

/-- Error values returned by store operations, mirroring the Go error
values that the claims distinguish. -/
inductive GoErr where
  /-- Go `datastore.ErrNoSuchEntity`. -/
  | noSuchEntity
  /-- Go `ErrorOnlyAdminCanUpdateInventory`. -/
  | onlyAdminCanUpdate
  /-- An opaque infrastructure failure from the backing store or GCS. -/
  | infra
  /-- An error returned by `tgapi.FetchFileInfo`. -/
  | fetchFailed
deriving Repr, DecidableEq

/-- Constant `maxItems` from `models/inventory.go`. -/
def maxItems : Nat := 50

/-- Constant `utils.FileTypeMPEG4GIF`; it lives in the `utils` package
outside the provided sources, its concrete value is immaterial to every
claim. -/
def fileTypeMPEG4GIF : String := "mpeg4_gif"

/-- The file descriptor of `FetchFileInfo`: the canonical file identifier and
size reported by the external media service. -/
structure TGFile where
  FileID : String
  FileSize : Int
deriving Repr, DecidableEq

/-- Embedding of `CreateInventory(ctx, fileID, personality, userID, config)`.
`isAdmin` models `config.IsAdmin`; `now` models `time.Now()`.  The
non-transactional read-check-write of the source is a single Lean function;
the permission-race window the spec flags is not part of any claim here. -/
def createInventory (s : Store) (fileID : String) (personality : List Nat)
    (userID : Int) (isAdmin : Int → Bool) (now : Nat) :
    Store × Except GoErr Inventory :=
  match Store.get s fileID with
  | some i =>
      -- existing Inventory: only admins or the original creator may update
      if !(isAdmin userID || i.Creator == userID) then
        (s, .error .onlyAdminCanUpdate)
      else
        let i1 := { i with FileID := fileID, FileType := fileTypeMPEG4GIF,
                           Personality := personality, LastUsed := now }
        let i2 := if i1.Creator == 0 then { i1 with Creator := userID } else i1
        (Store.put s fileID i2, .ok i2)
  | none =>
      let i1 := { Inventory.zero with
                    FileID := fileID, FileType := fileTypeMPEG4GIF,
                    Personality := personality, LastUsed := now }
      let i2 := if i1.Creator == 0 then { i1 with Creator := userID } else i1
      (Store.put s fileID i2, .ok i2)

/-- Embedding of `IncrementUsageCounter(ctx, fileID)`: one single-key transaction; a
missing record is silently ignored, otherwise `UsageCount` is incremented
and `LastUsed` set to the current time. -/
def incrementUsageCounter (s : Store) (fileID : String) (now : Nat) :
    Store × Option GoErr :=
  match Store.get s fileID with
  | none => (s, none)
  | some i =>
      let i1 := { i with UsageCount := i.UsageCount + 1, LastUsed := now }
      (Store.put s fileID i1, none)

/-- Embedding of `ReplaceFileID(ctx, oldFileID, newFileID)`: a cross-group (`XG: true`)
transaction whose closure shadows `ctx` with the transaction context, so
the `Get`, `Delete` and `Put` (fallible operations 0, 1, 2 of the oracle)
are transactional: every error path leaves the committed store untouched,
and on success the delete of the old key and the put of the new key commit
as one step. -/
def replaceFileID (s : Store) (oldFileID newFileID : String)
    (fail : Nat → Bool) : Store × Except GoErr Inventory :=
  -- op 0: nds.Get(ctx, oldKey, i)
  if fail 0 then (s, .error .infra) else
  match Store.get s oldFileID with
  | none => (s, .error .noSuchEntity)
  | some i0 =>
      let i := { i0 with FileID := newFileID }
      -- op 1: nds.Delete(ctx, oldKey), buffered in the transaction
      if fail 1 then (s, .error .infra) else
      -- op 2: nds.Put(ctx, inventoryKey(newFileID), i), buffered
      if fail 2 then (s, .error .infra) else
      (Store.put (Store.delete s oldFileID) newFileID i, .ok i)

/-- Embedding of `UpdateFileMetadata(ctx, oldFileID)`.  `fetch` models
`tgapi.FetchFileInfo`; `isDevAppServer` models `appengine.IsDevAppServer()`;
`gcsOK = false` makes `utils.StoreFileToGCS` fail.  The source wraps the
datastore work in `nds.RunInTransaction(ctx, func(tc context.Context) ...)`
but every operation in the closure uses the OUTER `ctx`, not `tc` (and the
options lack `XG: true`), so the `Get` (op 0), the conditional `Delete`
(op 1) and the `Put` (op 2) each hit the committed store directly: a
mutation that has already executed is NOT undone when a later operation
fails.  The embedding reproduces exactly that. -/
def updateFileMetadata (s : Store) (oldFileID : String)
    (fetch : Option (TGFile × List Nat)) (md5 : List Nat → List Nat)
    (isDevAppServer : Bool) (gcsOK : Bool) (fail : Nat → Bool) :
    Store × Option GoErr :=
  match fetch with
  | none => (s, some .fetchFailed)
  | some (file, b) =>
    let newFileID := file.FileID
    if !isDevAppServer && !gcsOK then (s, some .infra) else
    let sum := md5 b
    -- op 0: nds.Get(ctx, oldKey, i) — outer context, non-transactional
    if fail 0 then (s, some .infra) else
    match Store.get s oldFileID with
    | none => (s, none)   -- ErrNoSuchEntity: silently ignore
    | some i0 =>
      let i := { i0 with FileID := newFileID, MD5Sum := sum,
                         FileSize := file.FileSize }
      if oldFileID != newFileID then
        -- op 1: nds.Delete(ctx, oldKey) — outer context, commits at once
        if fail 1 then (s, some .infra) else
        let s1 := Store.delete s oldFileID
        -- op 2: nds.Put(ctx, inventoryKey(newFileID), i) — outer context
        if fail 2 then (s1, some .infra) else
        (Store.put s1 newFileID i, none)
      else
        -- op 2: nds.Put — old and new key coincide, no delete was issued
        if fail 2 then (s, some .infra) else
        (Store.put s newFileID i, none)

/-- Decimal digits of `strconv.Atoi`: at least one character, all digits. -/
def atoiDigits (cs : List Char) : Option Nat :=
  if cs.isEmpty then none
  else if cs.all (fun c => c.isDigit) then
    some (cs.foldl (fun acc c => acc * 10 + (c.toNat - 48)) 0)
  else none

/-- Go `strconv.Atoi`: optional sign followed by one or more decimal digits;
`none` models a parse error (in which case the Go result value is `0`).
Overflow is not modelled (`Int` is unbounded); no claim involves cursors
near the `int` range limits. -/
def atoi (s : String) : Option Int :=
  match s.data with
  | '+' :: rest => (atoiDigits rest).map (fun n => (n : Int))
  | '-' :: rest => (atoiDigits rest).map (fun n => -(n : Int))
  | cs => (atoiDigits cs).map (fun n => (n : Int))

/-- Go `strconv.Itoa` for the Go `int` values this code formats. -/
def itoa (n : Int) : String :=
  if n < 0 then "-" ++ Nat.repr (-n).toNat else Nat.repr n.toNat

/-- The descending `UsageCount` order of the query
`Order("-UsageCount")`. -/
def byUsageDesc (a b : String × Inventory) : Prop :=
  b.2.UsageCount ≤ a.2.UsageCount

instance : DecidableRel byUsageDesc := fun a b =>
  inferInstanceAs (Decidable (b.2.UsageCount ≤ a.2.UsageCount))

/-- Embedding of `FindInventories(ctx, personalities, lastCursor)`.

The datastore query is modelled as: keep the entries matching every
`Filter("Personality = ", p)` (a datastore list-property equality filter
matches when any element of the stored list equals the operand), sort by
descending `UsageCount`, then apply offset and the `Limit(maxItems)`.
`nds.GetMulti` on the key-only results is modelled by fetching each key
from the store.

The source parses the cursor with `offset, err := strconv.Atoi(lastCursor)`
and then applies `q.Offset(offset)` under `if err != nil` — i.e. only when
parsing FAILED (in which case Go's `Atoi` returned `offset = 0`).  The
embedding reproduces this faithfully: a successfully parsed offset is never
applied to the query, while the parsed value still feeds the
`offset + maxItems` arithmetic of the continuation cursor. -/
def findInventories (s : Store) (personalities : List Nat)
    (lastCursor : String) : List Inventory × String :=
  let matched := s.filter
    (fun kv => personalities.all (fun p => kv.2.Personality.contains p))
  let sorted := matched.insertionSort byUsageDesc
  let parsed := atoi lastCursor
  let offset : Int := match parsed with
    | some n => n
    | none => 0
  let parseFailed : Bool := parsed.isNone
  -- BUG in source: `if err != nil { q = q.Offset(offset) }`
  let afterOffset := if parseFailed then sorted.drop offset.toNat else sorted
  let page := afterOffset.take maxItems
  let keys := page.map (fun kv => kv.1)
  if keys.length = 0 then ([], "")
  else
    let inventories := keys.map (fun k => (Store.get s k).getD Inventory.zero)
    let newCursor := if keys.length = maxItems then itoa (offset + maxItems)
                     else ""
    (inventories, newCursor)

/-- The `Count` of the query `Filter("FileSize =", fileSize)`. -/
def countBySize (s : Store) (fileSize : Int) : Nat :=
  (s.filter (fun kv => kv.2.FileSize == fileSize)).length

/-- The key-only results of the query `Filter("MD5Sum =", sum)`. -/
def md5Keys (s : Store) (sum : List Nat) : List String :=
  (s.filter (fun kv => kv.2.MD5Sum == sum)).map (fun kv => kv.1)

/-- The byte slice `b` produced by `_, b, err := tgapi.FetchFileInfo(...)`:
on a fetch error `b` is `nil` (the error itself is never inspected by
`GetInventoryByFile`). -/
def fetchBytes (fetch : Option (TGFile × List Nat)) : List Nat :=
  match fetch with
  | some fb => fb.2
  | none => []

/-- Embedding of `GetInventoryByFile(ctx, fileID, fileSize)`.  Returns
`(result, fetchedBytes, loggedCritical)` where `result` is the Go pair
`(*Inventory, error)` collapsed to an `Except` (`.ok none` = the
`(nil, nil)` NoMatch outcome), `fetchedBytes` records whether
`tgapi.FetchFileInfo` was invoked, and `loggedCritical` records whether
`log.Criticalf` fired on a hash conflict.  Note the source drops the fetch
error: `err` from `FetchFileInfo` is immediately overwritten by the next
query without being checked, and the MD5 of the (then nil) bytes is used
regardless. -/
def getInventoryByFile (md5 : List Nat → List Nat) (s : Store)
    (fileSize : Int) (fetch : Option (TGFile × List Nat)) :
    Except GoErr (Option Inventory) × Bool × Bool :=
  if countBySize s fileSize = 0 then (.ok none, false, false)
  else
    let b := fetchBytes fetch
    let sum := md5 b
    let keys := md5Keys s sum
    match keys with
    | [] => (.ok none, true, false)
    | [k] => (.ok (Store.get s k), true, false)
    | _ => (.ok none, true, true)

/-! ## The knowledge-graph entity resolver (`utils` package) -/

/-- A memcache item as built by `setKGMemcache`: key, value, and the
`Expiration` duration in nanoseconds (`time.Duration`). -/
structure MemcacheItem where
  key : String
  value : String
  expiration : Nat
deriving Repr, DecidableEq

/-- The memcache contents; `memcache.Set` overwrites by prepending (reads
take the first hit). -/
abbrev Memcache := List MemcacheItem

/-- Go `time.Hour` in nanoseconds. -/
def timeHour : Nat := 3600 * 1000000000

/-- The `kgMemcacheKey` constant. -/
def kgMemcacheKey : String := "KG1:"

/-- Embedding of `getKGMemcacheKey(query)`. -/
def getKGMemcacheKey (query : String) : String := kgMemcacheKey ++ query

/-- Model of `memcache.Get`. -/
def memcacheGet (m : Memcache) (k : String) : Option MemcacheItem :=
  m.find? (fun item => item.key == k)

/-- Model of `memcache.Set`. -/
def memcacheSet (m : Memcache) (item : MemcacheItem) : Memcache :=
  item :: m

/-- Embedding of `getKGMemcache(ctx, query)`: the cached string, `none` on a miss. -/
def getKGMemcache (m : Memcache) (query : String) : Option String :=
  (memcacheGet m (getKGMemcacheKey query)).map (fun item => item.value)

/-- Embedding of `setKGMemcache(ctx, query, result)`: stores with a fixed 4-hour TTL;
the `memcache.Set` error is discarded (`_ =`). -/
def setKGMemcache (m : Memcache) (query result : String) : Memcache :=
  memcacheSet m
    { key := getKGMemcacheKey query, value := result,
      expiration := 4 * timeHour }

/-- The outcome of one `sendKGEntityQuery` call against the external
knowledge-graph backend: `.error` for a service-construction or request
error, `.ok none` for a successful reply with an empty item list,
`.ok (some id)` for a successful reply whose top item carries the raw
`@id` string. -/
abbrev KGReply := Except Unit (Option String)

/-- Embedding of `tryFindKGEntityInternal(ctx, query)` applied to one backend reply:
propagates errors, maps an empty reply to `""`, and otherwise strips the
`"kg:"` scheme prefix (`strings.TrimPrefix`) off the `@id`. -/
def tryFindKGEntityInternal (reply : KGReply) : Except Unit String :=
  match reply with
  | .error e => .error e
  | .ok none => .ok ""
  | .ok (some id) =>
      .ok (if id.startsWith "kg:" then id.drop 3 else id)

/-- Embedding of `TryFindKGEntity(ctx, query)`.  Returns
`(result, cache after the call, whether the external backend was
contacted)`.  A cache hit returns the cached value at once; otherwise the
backend reply is consulted: an error is swallowed (warning logged, `""`
returned, nothing cached), a success is written through `setKGMemcache`
before being returned. -/
def tryFindKGEntity (m : Memcache) (reply : KGReply) (query : String) :
    String × Memcache × Bool :=
  match getKGMemcache m query with
  | some r => (r, m, false)
  | none =>
      match tryFindKGEntityInternal reply with
      | .error _ => ("", m, true)
      | .ok result => (result, setKGMemcache m query result, true)

/-- Two sequential `TryFindKGEntity` calls on the same query, the second
running against the cache state the first left behind; returns the number
of external backend calls made in total. -/
def resolveTwice (m : Memcache) (r1 r2 : KGReply) (query : String) : Nat :=
  let c1 := tryFindKGEntity m r1 query
  let c2 := tryFindKGEntity c1.2.1 r2 query
  (if c1.2.2 then 1 else 0) + (if c2.2.2 then 1 else 0)

/-- The value `tryFindKGEntityInternal` extracts from a successful backend
reply. -/
def kgValue (o : Option String) : String :=
  match o with
  | none => ""
  | some id => if id.startsWith "kg:" then id.drop 3 else id

/-- A sample record used by concrete witnesses. -/
def inv1 : Inventory :=
  { Inventory.zero with FileID := "a", Creator := 7, UsageCount := 2,
                        MD5Sum := [1], FileSize := 9 }

/-- Sample records for the pagination counterexample: `invA` outranks
`invB` by `UsageCount`. -/
def invA : Inventory := { Inventory.zero with FileID := "a", UsageCount := 2 }

/-- See `invA`. -/
def invB : Inventory := { Inventory.zero with FileID := "b", UsageCount := 1 }

/-- A store of 50 records, producing one exactly-full page. -/
def bigStore : Store :=
  (List.range 50).map
    (fun n => (Nat.repr n, { Inventory.zero with FileID := Nat.repr n }))

/-! ## Helper lemmas -/

theorem toDigitsCore_len_ge (b : Nat) :
    ∀ (fuel n : Nat) (ds : List Char),
      ds.length ≤ (Nat.toDigitsCore b fuel n ds).length := by
  intro fuel
  induction fuel with
  | zero => intro n ds; simp [Nat.toDigitsCore]
  | succ f ih =>
    intro n ds
    simp only [Nat.toDigitsCore]
    split
    · simp
    · calc ds.length ≤ (Nat.digitChar (n % b) :: ds).length := by simp
        _ ≤ _ := ih _ _

theorem toDigits_len_pos (b n : Nat) : 0 < (Nat.toDigits b n).length := by
  simp only [Nat.toDigits, Nat.toDigitsCore]
  split
  · simp
  · calc 0 < (Nat.digitChar (n % b) :: []).length := by simp
      _ ≤ _ := toDigitsCore_len_ge b _ _ _

theorem natRepr_ne_empty (n : Nat) : Nat.repr n ≠ "" := by
  intro he
  have h := toDigits_len_pos 10 n
  have hd := congrArg String.data he
  simp only [Nat.repr, List.asString] at hd
  rw [hd] at h
  simp at h

theorem itoa_ne_empty (n : Int) : itoa n ≠ "" := by
  unfold itoa
  split
  · intro he
    have h := congrArg String.length he
    simp [String.length_append] at h
    exact absurd h.1 (by decide)
  · exact natRepr_ne_empty _

theorem internal_ok (o : Option String) :
    tryFindKGEntityInternal (.ok o) = .ok (kgValue o) := by
  cases o <;> rfl

theorem getKGMemcache_set (m : Memcache) (q v : String) :
    getKGMemcache (setKGMemcache m q v) q = some v := by
  simp [getKGMemcache, setKGMemcache, memcacheSet, memcacheGet, List.find?]

theorem memcacheGet_set (m : Memcache) (q v : String) :
    memcacheGet (setKGMemcache m q v) (getKGMemcacheKey q) =
      some { key := getKGMemcacheKey q, value := v,
             expiration := 4 * timeHour } := by
  simp [setKGMemcache, memcacheSet, memcacheGet, List.find?]

theorem tryFindKGEntity_hit (m : Memcache) (q v : String) (r : KGReply)
    (h : getKGMemcache m q = some v) :
    tryFindKGEntity m r q = (v, m, false) := by
  simp [tryFindKGEntity, h]

theorem tryFindKGEntity_miss_ok (m : Memcache) (q : String)
    (o : Option String) (h : getKGMemcache m q = none) :
    tryFindKGEntity m (.ok o) q =
      (kgValue o, setKGMemcache m q (kgValue o), true) := by
  simp [tryFindKGEntity, h, internal_ok]

/-! ## Claims -/

/-- C8: `IncrementUsage` on a missing fileID succeeds and leaves the store
unchanged (no record created); on a present fileID it increments
`UsageCount` by exactly 1 and sets `LastUsed` to the current time, leaving
every other field unchanged, and succeeds.  The single-key transaction of
the source (whose closure correctly shadows `ctx`) is the single atomic
step of the embedding. -/
theorem claim_C8 (s : Store) (fileID : String) (now : Nat) :
    (Store.get s fileID = none →
        incrementUsageCounter s fileID now = (s, none)) ∧
    (∀ i, Store.get s fileID = some i →
        incrementUsageCounter s fileID now =
          (Store.put s fileID
            { i with UsageCount := i.UsageCount + 1, LastUsed := now },
           none)) := by
  constructor
  · intro h; simp [incrementUsageCounter, h]
  · intro i h; simp [incrementUsageCounter, h]

/-- Witness for C8 at concrete inputs. -/
theorem claim_C8_witness :
    incrementUsageCounter [] "a" 5 = ([], none) ∧
    incrementUsageCounter [("a", inv1)] "a" 5 =
      (Store.put [("a", inv1)] "a"
        { inv1 with UsageCount := inv1.UsageCount + 1, LastUsed := 5 },
       none) :=
  ⟨(claim_C8 [] "a" 5).1 rfl, (claim_C8 [("a", inv1)] "a" 5).2 inv1 rfl⟩

/-- C4: when a record exists at `fileID` with creator `u1` and the caller
`u2 ≠ u1` is not an admin, `CreateInventory` returns the permission error
and the store (hence the stored record) is unchanged byte for byte.
When the caller is the creator or an admin, or no record exists, it
upserts: `FileType`, `Personality` and `LastUsed` are set and `Creator` is
set only if it was previously unset (zero). -/
theorem claim_C4 (s : Store) (fileID : String) (ps : List Nat) (u2 : Int)
    (isAdmin : Int → Bool) (now : Nat) :
    (∀ i, Store.get s fileID = some i → i.Creator ≠ u2 →
        isAdmin u2 = false →
        createInventory s fileID ps u2 isAdmin now =
          (s, .error .onlyAdminCanUpdate)) ∧
    (∀ i, Store.get s fileID = some i →
        (i.Creator = u2 ∨ isAdmin u2 = true) →
        createInventory s fileID ps u2 isAdmin now =
          (Store.put s fileID
            { i with FileID := fileID, FileType := fileTypeMPEG4GIF,
                     Personality := ps, LastUsed := now,
                     Creator := if i.Creator = 0 then u2 else i.Creator },
           .ok { i with FileID := fileID, FileType := fileTypeMPEG4GIF,
                        Personality := ps, LastUsed := now,
                        Creator := if i.Creator = 0 then u2 else i.Creator })) ∧
    (Store.get s fileID = none →
        createInventory s fileID ps u2 isAdmin now =
          (Store.put s fileID
            { Inventory.zero with
                FileID := fileID, FileType := fileTypeMPEG4GIF,
                Personality := ps, LastUsed := now, Creator := u2 },
           .ok { Inventory.zero with
                   FileID := fileID, FileType := fileTypeMPEG4GIF,
                   Personality := ps, LastUsed := now, Creator := u2 })) := by
  refine ⟨?_, ?_, ?_⟩
  · intro i h hne hadm
    have hb : (i.Creator == u2) = false := by simp [hne]
    simp [createInventory, h, hadm, hb]
  · intro i h hor
    have hcond : (isAdmin u2 || i.Creator == u2) = true := by
      rcases hor with h1 | h1 <;> simp [h1]
    simp only [createInventory, h, hcond, Bool.not_true]
    by_cases hz : i.Creator = 0 <;> simp [hz]
  · intro h
    simp [createInventory, h, Inventory.zero]

/-- Witness for C4 at concrete inputs: a stored record with creator 7, a
non-admin caller 8 is denied with the store unchanged; caller 7 upserts. -/
theorem claim_C4_witness :
    createInventory [("a", inv1)] "a" [3] 8 (fun _ => false) 5 =
      ([("a", inv1)], .error .onlyAdminCanUpdate) ∧
    createInventory [("a", inv1)] "a" [3] 7 (fun _ => false) 5 =
      (Store.put [("a", inv1)] "a"
        { inv1 with FileID := "a", FileType := fileTypeMPEG4GIF,
                    Personality := [3], LastUsed := 5,
                    Creator := if inv1.Creator = 0 then 7 else inv1.Creator },
       .ok { inv1 with FileID := "a", FileType := fileTypeMPEG4GIF,
                       Personality := [3], LastUsed := 5,
                       Creator := if inv1.Creator = 0 then 7 else inv1.Creator }) :=
  ⟨(claim_C4 [("a", inv1)] "a" [3] 8 (fun _ => false) 5).1 inv1 rfl
      (by decide) rfl,
   (claim_C4 [("a", inv1)] "a" [3] 7 (fun _ => false) 5).2.1 inv1 rfl
      (Or.inl (by decide))⟩

/-- C5: on a cache miss, a backend error makes `TryFindKGEntity` return
the empty string (never propagating the failure), and nothing is written
to the cache, so a subsequent call on the same query contacts the backend
again. -/
theorem claim_C5 (m : Memcache) (q : String)
    (h : getKGMemcache m q = none) :
    tryFindKGEntity m (.error ()) q = ("", m, true) ∧
    ∀ r2 : KGReply, (tryFindKGEntity m r2 q).2.2 = true := by
  constructor
  · simp [tryFindKGEntity, h, tryFindKGEntityInternal]
  · intro r2
    unfold tryFindKGEntity
    rw [h]
    rcases htr : tryFindKGEntityInternal r2 with e | v <;> simp [htr]

/-- Witness for C5 on the empty cache. -/
theorem claim_C5_witness :
    tryFindKGEntity [] (.error ()) "miku" = ("", [], true) ∧
    ∀ r2 : KGReply, (tryFindKGEntity [] r2 "miku").2.2 = true :=
  claim_C5 [] "miku" rfl

/-- C6: a cache hit — positive or negative — is returned at once without
contacting the backend; on a miss, a successful reply (positive or
negative) is stored under the query's cache key with the fixed 4-hour TTL
before being returned, and consequently two sequential calls on the same
query make exactly one backend call. -/
theorem claim_C6 (m : Memcache) (q : String) (r1 r2 : KGReply) :
    (∀ v, getKGMemcache m q = some v →
        tryFindKGEntity m r1 q = (v, m, false)) ∧
    (∀ o, getKGMemcache m q = none → r1 = .ok o →
        memcacheGet (tryFindKGEntity m r1 q).2.1 (getKGMemcacheKey q) =
          some { key := getKGMemcacheKey q,
                 value := (tryFindKGEntity m r1 q).1,
                 expiration := 4 * timeHour } ∧
        resolveTwice m r1 r2 q = 1) := by
  constructor
  · intro v hv
    exact tryFindKGEntity_hit m q v r1 hv
  · intro o hm hr1
    subst hr1
    have h1 := tryFindKGEntity_miss_ok m q o hm
    have h2 : tryFindKGEntity (setKGMemcache m q (kgValue o)) r2 q =
        (kgValue o, setKGMemcache m q (kgValue o), false) :=
      tryFindKGEntity_hit _ _ _ _ (getKGMemcache_set m q (kgValue o))
    constructor
    · rw [h1]
      exact memcacheGet_set m q (kgValue o)
    · simp only [resolveTwice, h1, h2]
      rfl

/-- Witness for C6: a concrete hit, and a concrete miss followed by a
positive reply cached with the 4-hour TTL and one total backend call. -/
theorem claim_C6_witness :
    tryFindKGEntity [⟨"KG1:miku", "id0", 4 * timeHour⟩]
        (.error ()) "miku" = ("id0", [⟨"KG1:miku", "id0", 4 * timeHour⟩], false) ∧
    (memcacheGet (tryFindKGEntity [] (.ok (some "kg:id1")) "miku").2.1
        (getKGMemcacheKey "miku") =
      some { key := getKGMemcacheKey "miku",
             value := (tryFindKGEntity [] (.ok (some "kg:id1")) "miku").1,
             expiration := 4 * timeHour } ∧
     resolveTwice [] (.ok (some "kg:id1")) (.error ()) "miku" = 1) :=
  ⟨(claim_C6 [⟨"KG1:miku", "id0", 4 * timeHour⟩] "miku" (.error ())
      (.error ())).1 "id0" rfl,
   (claim_C6 [] "miku" (.ok (some "kg:id1")) (.error ())).2
      (some "kg:id1") rfl rfl⟩

/-- C1 as stated is violated at `oldID = newID`: with a record stored at
`"a"`, `ReplaceFileID(ctx, "a", "a")` succeeds, yet afterwards
`Get("a")` — a `Get(oldID)` — still returns the record rather than
NotFound (the transaction deletes the key and re-inserts it at the same
key). -/
theorem claim_C1_counterexample :
    replaceFileID [("a", inv1)] "a" "a" (fun _ => false) =
      ([("a", { inv1 with FileID := "a" })],
       .ok { inv1 with FileID := "a" }) ∧
    Store.get (replaceFileID [("a", inv1)] "a" "a" (fun _ => false)).1 "a" =
      some { inv1 with FileID := "a" } :=
  ⟨rfl, rfl⟩

/-- C1 amended with `oldID ≠ newID`: for every store holding a record at
`oldID`, a successful `ReplaceFileID` leaves `Get(oldID) = NotFound` and
`Get(newID)` the prior record with `FileID = newID`; a missing source
propagates NotFound with the store unchanged; every error exit leaves the
store unchanged (the `XG` transaction's closure shadows `ctx`, so all
mutations are buffered and roll back together); and starting from a state
with `oldID` present and `newID` absent, every exit state has exactly one
of the two keys present.  The oracle `fail` injects infrastructure
failures into the three fallible store operations. -/
theorem claim_C1_amended (s : Store) (oldID newID : String)
    (fail : Nat → Bool) (hne : oldID ≠ newID) :
    (∀ i r, Store.get s oldID = some i →
        (replaceFileID s oldID newID fail).2 = .ok r →
        r = { i with FileID := newID } ∧
        (replaceFileID s oldID newID fail).1 =
          Store.put (Store.delete s oldID) newID { i with FileID := newID } ∧
        Store.get (replaceFileID s oldID newID fail).1 oldID = none ∧
        Store.get (replaceFileID s oldID newID fail).1 newID =
          some { i with FileID := newID }) ∧
    (fail 0 = false → Store.get s oldID = none →
        replaceFileID s oldID newID fail = (s, .error .noSuchEntity)) ∧
    (∀ e, (replaceFileID s oldID newID fail).2 = .error e →
        (replaceFileID s oldID newID fail).1 = s) ∧
    (Store.get s oldID ≠ none → Store.get s newID = none →
        (Store.get (replaceFileID s oldID newID fail).1 oldID = none ↔
         Store.get (replaceFileID s oldID newID fail).1 newID ≠ none)) := by
  cases hf0 : fail 0 with
  | true =>
    have hrun : replaceFileID s oldID newID fail = (s, .error .infra) := by
      simp [replaceFileID, hf0]
    refine ⟨?_, ?_, ?_, ?_⟩
    · intro i r _ hok; rw [hrun] at hok; exact absurd hok (by simp)
    · intro h0 _; exact Bool.noConfusion h0
    · intro e _; rw [hrun]
    · intro h1 h2
      rw [hrun]
      show Store.get s oldID = none ↔ Store.get s newID ≠ none
      exact ⟨fun hc => absurd hc h1, fun hc => absurd h2 hc⟩
  | false =>
    cases hget : Store.get s oldID with
    | none =>
      have hrun : replaceFileID s oldID newID fail =
          (s, .error .noSuchEntity) := by
        simp [replaceFileID, hf0, hget]
      refine ⟨?_, ?_, ?_, ?_⟩
      · intro i r hi _; exact Option.noConfusion hi
      · intro _ _; exact hrun
      · intro e _; rw [hrun]
      · intro h1 _; exact absurd rfl h1
    | some i0 =>
      cases hf1 : fail 1 with
      | true =>
        have hrun : replaceFileID s oldID newID fail = (s, .error .infra) := by
          simp [replaceFileID, hf0, hget, hf1]
        refine ⟨?_, ?_, ?_, ?_⟩
        · intro i r _ hok; rw [hrun] at hok; exact absurd hok (by simp)
        · intro _ h0; exact Option.noConfusion h0
        · intro e _; rw [hrun]
        · intro _ h2
          rw [hrun]
          show Store.get s oldID = none ↔ Store.get s newID ≠ none
          rw [hget, h2]
          simp
      | false =>
        cases hf2 : fail 2 with
        | true =>
          have hrun : replaceFileID s oldID newID fail =
              (s, .error .infra) := by
            simp [replaceFileID, hf0, hget, hf1, hf2]
          refine ⟨?_, ?_, ?_, ?_⟩
          · intro i r _ hok; rw [hrun] at hok; exact absurd hok (by simp)
          · intro _ h0; exact Option.noConfusion h0
          · intro e _; rw [hrun]
          · intro _ h2
            rw [hrun]
            show Store.get s oldID = none ↔ Store.get s newID ≠ none
            rw [hget, h2]
            simp
        | false =>
          have hrun : replaceFileID s oldID newID fail =
              (Store.put (Store.delete s oldID) newID
                { i0 with FileID := newID },
               .ok { i0 with FileID := newID }) := by
            simp [replaceFileID, hf0, hget, hf1, hf2]
          have hgold : Store.get (Store.put (Store.delete s oldID) newID
              { i0 with FileID := newID }) oldID = none := by
            rw [Store.get_put_ne _ _ _ _ hne, Store.get_delete_self]
          have hgnew : Store.get (Store.put (Store.delete s oldID) newID
              { i0 with FileID := newID }) newID =
              some { i0 with FileID := newID } := Store.get_put_self _ _ _
          refine ⟨?_, ?_, ?_, ?_⟩
          · intro i r hi hok
            have hi0 : i0 = i := by injection hi
            subst hi0
            rw [hrun] at hok
            have hr : { i0 with FileID := newID } = r := by
              simpa using hok
            subst hr
            refine ⟨rfl, by rw [hrun], ?_, ?_⟩
            · rw [hrun]; exact hgold
            · rw [hrun]; exact hgnew
          · intro _ h0; exact Option.noConfusion h0
          · intro e he; rw [hrun] at he; exact absurd he (by simp)
          · intro _ _
            rw [hrun]
            show Store.get (Store.put (Store.delete s oldID) newID
                { i0 with FileID := newID }) oldID = none ↔
              Store.get (Store.put (Store.delete s oldID) newID
                { i0 with FileID := newID }) newID ≠ none
            rw [hgold, hgnew]
            simp

/-- Witness for C1 (amended) at concrete inputs. -/
theorem claim_C1_witness :
    Store.get (replaceFileID [("a", inv1)] "a" "b" (fun _ => false)).1 "a" =
      none ∧
    Store.get (replaceFileID [("a", inv1)] "a" "b" (fun _ => false)).1 "b" =
      some { inv1 with FileID := "b" } :=
  ⟨((claim_C1_amended [("a", inv1)] "a" "b" (fun _ => false) (by decide)).1
      inv1 { inv1 with FileID := "b" } rfl rfl).2.2.1,
   ((claim_C1_amended [("a", inv1)] "a" "b" (fun _ => false) (by decide)).1
      inv1 { inv1 with FileID := "b" } rfl rfl).2.2.2⟩

/-- C3 fails on the code: `UpdateFileMetadata`'s transaction closure takes
the transaction context `tc` but performs every datastore operation with
the outer `ctx` (and its options lack `XG: true`), so the operations are
not transactional.  Concretely, with a record at `"a"` and a fetched
canonical identifier `"b"`, an infrastructure failure of the final `Put`
(`fail 2`) exits with an error while the backing store has already lost
the old key and not yet gained the new one — the intermediate state the
claim asserts is never observable. -/
theorem claim_C3_nonatomic :
    updateFileMetadata [("a", inv1)] "a"
        (some ({ FileID := "b", FileSize := 9 }, [1, 2]))
        (fun bs => bs) false true (fun n => n == 2) = ([], some .infra) ∧
    ([] : Store) ≠ [("a", inv1)] ∧
    Store.get ([] : Store) "a" = none ∧
    Store.get ([] : Store) "b" = none := by
  refine ⟨rfl, by simp, rfl, rfl⟩

/-- C7: `GetInventoryByFile` first counts records with the given size and,
when the count is zero, returns NoMatch (`.ok none`) without fetching
bytes; otherwise it fetches, hashes, and queries by exact digest: zero key
matches give NoMatch, a unique match gives that record, and more than one
match gives NoMatch (not an error, not one of the conflicting records)
with the high-severity log flag set. -/
theorem claim_C7 (md5 : List Nat → List Nat) (s : Store) (fileSize : Int)
    (fetch : Option (TGFile × List Nat)) :
    (countBySize s fileSize = 0 →
        getInventoryByFile md5 s fileSize fetch = (.ok none, false, false)) ∧
    (countBySize s fileSize ≠ 0 →
        (getInventoryByFile md5 s fileSize fetch).2.1 = true ∧
        (md5Keys s (md5 (fetchBytes fetch)) = [] →
            getInventoryByFile md5 s fileSize fetch =
              (.ok none, true, false)) ∧
        (∀ k, md5Keys s (md5 (fetchBytes fetch)) = [k] →
            getInventoryByFile md5 s fileSize fetch =
              (.ok (Store.get s k), true, false)) ∧
        (1 < (md5Keys s (md5 (fetchBytes fetch))).length →
            getInventoryByFile md5 s fileSize fetch =
              (.ok none, true, true))) := by
  constructor
  · intro h; simp [getInventoryByFile, h]
  · intro h
    refine ⟨?_, ?_, ?_, ?_⟩
    · simp only [getInventoryByFile, if_neg h]
      cases hk : md5Keys s (md5 (fetchBytes fetch)) with
      | nil => rfl
      | cons a t => cases t with
        | nil => rfl
        | cons b t2 => rfl
    · intro hk
      simp only [getInventoryByFile, if_neg h]
      rw [hk]
    · intro k hk
      simp only [getInventoryByFile, if_neg h]
      rw [hk]
    · intro hlen
      simp only [getInventoryByFile, if_neg h]
      cases hk : md5Keys s (md5 (fetchBytes fetch)) with
      | nil => rw [hk] at hlen; simp at hlen
      | cons a t => cases t with
        | nil => rw [hk] at hlen; simp at hlen
        | cons b t2 => rfl

/-- Witness for C7: an empty store short-circuits to NoMatch without a
fetch; a store whose single record matches both size and digest returns
that record. -/
theorem claim_C7_witness :
    getInventoryByFile (fun _ => [1]) [] 9 none = (.ok none, false, false) ∧
    getInventoryByFile (fun _ => [1]) [("a", inv1)] 9 none =
      (.ok (Store.get [("a", inv1)] "a"), true, false) :=
  ⟨(claim_C7 (fun _ => [1]) [] 9 none).1 rfl,
   ((claim_C7 (fun _ => [1]) [("a", inv1)] 9 none).2 (by decide)).2.2.1
      "a" (by decide)⟩

/-- C10: when the size-candidate count is nonzero and the external media
fetch fails, `GetInventoryByFile` discards the fetch error: it behaves
exactly as if the fetch had succeeded with empty (nil) bytes — it hashes
`[]`, queries that digest, returns a non-error result, and the caller
never sees the failure. -/
theorem claim_C10 (md5 : List Nat → List Nat) (s : Store) (fileSize : Int)
    (tf : TGFile) (h : countBySize s fileSize ≠ 0) :
    getInventoryByFile md5 s fileSize none =
      getInventoryByFile md5 s fileSize (some (tf, [])) ∧
    (getInventoryByFile md5 s fileSize none).2.1 = true ∧
    ∃ v, (getInventoryByFile md5 s fileSize none).1 = .ok v := by
  refine ⟨rfl, ?_, ?_⟩
  · simp only [getInventoryByFile, if_neg h]
    cases hk : md5Keys s (md5 (fetchBytes (none : Option (TGFile × List Nat)))) with
    | nil => rfl
    | cons a t => cases t with
      | nil => rfl
      | cons b t2 => rfl
  · simp only [getInventoryByFile, if_neg h]
    cases hk : md5Keys s (md5 (fetchBytes (none : Option (TGFile × List Nat)))) with
    | nil => exact ⟨none, rfl⟩
    | cons a t => cases t with
      | nil => exact ⟨Store.get s a, rfl⟩
      | cons b t2 => exact ⟨none, rfl⟩

/-- Witness for C10: one record of size 9 and a digest function that never
matches it — a failed fetch still yields the NoMatch result, not an
error. -/
theorem claim_C10_witness :
    getInventoryByFile (fun _ => [0]) [("a", inv1)] 9 none =
      getInventoryByFile (fun _ => [0]) [("a", inv1)] 9
        (some (⟨"a", 9⟩, [])) ∧
    (getInventoryByFile (fun _ => [0]) [("a", inv1)] 9 none).2.1 = true ∧
    ∃ v, (getInventoryByFile (fun _ => [0]) [("a", inv1)] 9 none).1 =
      .ok v :=
  claim_C10 (fun _ => [0]) [("a", inv1)] 9 ⟨"a", 9⟩ (by decide)

/-- C2 fails on the code: `FindInventories` parses the cursor and then
applies `q.Offset(offset)` under `if err != nil` — i.e. only when parsing
FAILED, in which case `offset` is 0.  A successfully parsed cursor is
therefore never applied: with two records and cursor `"1"`, the page still
starts at the first (highest-usage) record, identical to the page for
cursor `"0"`, where the claim requires the first record to be skipped. -/
theorem claim_C2_offset_ignored :
    findInventories [("a", invA), ("b", invB)] [] "1" =
      ([invA, invB], "") ∧
    findInventories [("a", invA), ("b", invB)] [] "1" =
      findInventories [("a", invA), ("b", invB)] [] "0" ∧
    findInventories [("a", invA), ("b", invB)] [] "1" ≠ ([invB], "") := by
  refine ⟨rfl, rfl, ?_⟩
  decide

theorem findInventories_cursor (s : Store) (ps : List Nat) (c : String) :
    (findInventories s ps c).2 =
      if (findInventories s ps c).1.length = maxItems
      then itoa ((atoi c).getD 0 + (maxItems : Int)) else "" := by
  cases hp : atoi c with
  | none =>
    simp only [findInventories, hp, Option.isNone_none, Option.getD_none]
    simp only [if_true]
    split
    · simp [maxItems]
    · simp [List.length_map]
  | some n =>
    simp only [findInventories, hp, Option.isNone_some, Option.getD_some]
    simp only [Bool.false_eq_true, if_false]
    split
    · simp [maxItems]
    · simp [List.length_map]

/-- C9: whenever a `FindInventories` page holds exactly `maxItems` (50)
records, the returned continuation cursor is the decimal rendering of the
incoming offset (the parsed cursor, or 0 for an unparseable one) plus 50,
and in particular non-empty; a page with fewer than 50 records returns the
empty cursor.  (Backing-store reads are modelled as non-failing, so every
call "returns without error".) -/
theorem claim_C9 (s : Store) (ps : List Nat) (c : String) :
    ((findInventories s ps c).1.length = maxItems →
        (findInventories s ps c).2 =
          itoa ((atoi c).getD 0 + (maxItems : Int)) ∧
        (findInventories s ps c).2 ≠ "") ∧
    ((findInventories s ps c).1.length < maxItems →
        (findInventories s ps c).2 = "") := by
  constructor
  · intro hlen
    have h := findInventories_cursor s ps c
    rw [if_pos hlen] at h
    refine ⟨h, ?_⟩
    rw [h]
    exact itoa_ne_empty _
  · intro hlen
    have h := findInventories_cursor s ps c
    rw [if_neg (Nat.ne_of_lt hlen)] at h
    exact h

/-- Witness for C9: an empty store yields an empty cursor; a store of 50
records yields the non-empty cursor `itoa (0 + 50)`. -/
theorem claim_C9_witness :
    (findInventories [] [] "x").2 = "" ∧
    ((findInventories bigStore [] "").2 =
        itoa ((atoi "").getD 0 + (maxItems : Int)) ∧
     (findInventories bigStore [] "").2 ≠ "") :=
  ⟨(claim_C9 [] [] "x").2 (by decide),
   (claim_C9 bigStore [] "").1 (by rfl)⟩

end Dedicatus
